import Mathlib

/-!
Verification development for the SecureVox transcription boundary.

The repository contains two parallel C++ implementations of one logical
component:
  * `windows/src/SecureVox.Native/whisper_wrapper.cpp` (the Windows wrapper)
  * `android/app/src/main/cpp/whisper_jni.cpp` (the Android JNI variant)

This file shallowly embeds the observable behaviour of both boundaries.
Modelling conventions, all visible in the definitions below:
  * Pointers that are only compared against null are modelled as `Option`
    (`Option Unit` for the opaque context handle, `Option String` for
    C strings).
  * The external inference engine (`whisper_full` and the segment getters)
    is an oracle passed as a parameter: a function from the language string
    handed to it to an `EngineOutcome` (result code plus segment list).
    Whether the oracle is consulted is tracked by an `engineCalled` flag,
    mirroring whether control reaches the `whisper_full` call.
  * `int64_t` centisecond timestamps are modelled as `Int`.  The C++ code
    converts them with `t0 * 10.0` into a `double` and prints it with
    `std::to_string`; for every timestamp with `|t0 * 10| < 2^53` that
    double is exactly the integer `t0 * 10` and `std::to_string` renders it
    as the decimal integer followed by ".000000", which is what `renderMs`
    produces.  Real whisper timestamps are far below that bound.
  * Segment text bytes are modelled as `Char` lists/`String`s; the five
    escaped characters are ASCII, and every byte of a multi-byte UTF-8
    sequence is outside the escaped set, so byte-level and character-level
    escaping agree on the texts the engine produces.
  * In the Android result type, `none` marks undefined behaviour (the JNI
    code dereferencing a null pointer: a null `language` string reaches
    `GetStringUTFChars`, a null segment text reaches the escaping loop).
    On every defined path the JNI function returns a non-null `jstring`,
    hence a `some`.  A null `audioData` array (also undefined behaviour)
    is outside the model: audio is modelled by its length only, since no
    sample value ever influences the boundary's control flow.
-/

namespace SecureVox

/-- a transcription segment as read back from the engine: text pointer
(`none` models a NULL `const char*`), start and end times in centiseconds. -/
structure Segment where
  text : Option String
  t0 : Int
  t1 : Int
deriving DecidableEq

/-- outcome of one `whisper_full` call: the result code and the segments
the engine then reports via `whisper_full_n_segments` and the getters. -/
structure EngineOutcome where
  code : Int
  segments : List Segment
deriving DecidableEq

/-- escaping of one character, from the `switch` in both sources: quote,
backslash, newline, carriage return and tab become two-character sequences,
every other character is passed through verbatim. -/
def escChar (c : Char) : List Char :=
  if c = '"' then ['\\', '"']
  else if c = '\\' then ['\\', '\\']
  else if c = '\n' then ['\\', 'n']
  else if c = '\r' then ['\\', 'r']
  else if c = '\t' then ['\\', 't']
  else [c]

/-- the escaping loop `for (const char* p = text; *p; p++) switch (*p) ...`
over the characters of the text. -/
def escList : List Char → List Char
  | [] => []
  | c :: rest => escChar c ++ escList rest

/-- `escapedText` as built by both sources from a non-null text. -/
def escapeText (s : String) : String := String.mk (escList s.data)

/-- un-escaping of the second character of a two-character escape sequence:
defined exactly on the five sequences the encoder emits. -/
def unescChar (c : Char) : Option Char :=
  if c = '"' then some '"'
  else if c = '\\' then some '\\'
  else if c = 'n' then some '\n'
  else if c = 'r' then some '\r'
  else if c = 't' then some '\t'
  else none

/-- un-escaping exactly the five two-character sequences `\"`, `\\`, `\n`,
`\r`, `\t`; any other material is passed through unchanged. -/
def unescList : List Char → List Char
  | [] => []
  | c :: rest =>
      if c = '\\' then
        match rest with
        | [] => ['\\']
        | d :: rest2 =>
            match unescChar d with
            | some e => e :: unescList rest2
            | none => '\\' :: unescList (d :: rest2)
      else c :: unescList rest

/-- rendering of the millisecond value: `std::to_string` applied to a
`double` holding the exact integer `n` prints `n` followed by six zero
decimals. -/
def renderMs (n : Int) : String := toString n ++ ".000000"

/-- the Windows wrapper's `escapedText`: a NULL text pointer is skipped by
the `if (text)` guard, leaving the accumulator empty. -/
def windowsEscapedText : Option String → String
  | none => ""
  | some t => escapeText t

/-- one segment object of the Windows wrapper's JSON, built by the
concatenations at the end of its loop body; times are converted from
centiseconds with `t0 * 10.0` and `t1 * 10.0`. -/
def windowsEncodeSegment (s : Segment) : String :=
  "\x7b" ++ "\"text\":\"" ++ windowsEscapedText s.text ++ "\"," ++
    "\"start\":" ++ renderMs (s.t0 * 10) ++ "," ++
    "\"end\":" ++ renderMs (s.t1 * 10) ++ "\x7d"

/-- the Windows wrapper's segment loop: `if (i > 0) jsonResult += ","`
before each object. -/
def windowsSegmentsLoop : List Segment → Nat → String
  | [], _ => ""
  | s :: rest, i =>
      (if 0 < i then "," else "") ++ windowsEncodeSegment s ++
        windowsSegmentsLoop rest (i + 1)

/-- the Windows wrapper's full JSON result: `"["`, the loop, `"]"`. -/
def windowsBuildJson (segs : List Segment) : String :=
  "[" ++ windowsSegmentsLoop segs 0 ++ "]"

/-- one segment object of the Android variant's JSON.  The Android escaping
loop dereferences the text pointer without a null check, so a NULL text is
undefined behaviour, marked `none`. -/
def androidEncodeSegment (s : Segment) : Option String :=
  match s.text with
  | none => none
  | some t =>
      some ("\x7b" ++ "\"text\":\"" ++ escapeText t ++ "\"," ++
        "\"start\":" ++ renderMs (s.t0 * 10) ++ "," ++
        "\"end\":" ++ renderMs (s.t1 * 10) ++ "\x7d")

/-- the Android variant's segment loop, same shape as the Windows loop,
undefinedness propagating. -/
def androidSegmentsLoop : List Segment → Nat → Option String
  | [], _ => some ""
  | s :: rest, i =>
      match androidEncodeSegment s, androidSegmentsLoop rest (i + 1) with
      | some e, some r => some ((if 0 < i then "," else "") ++ e ++ r)
      | _, _ => none

/-- the Android variant's full JSON result. -/
def androidBuildJson (segs : List Segment) : Option String :=
  match androidSegmentsLoop segs 0 with
  | some b => some ("[" ++ b ++ "]")
  | none => none

/-- observable outcome of `whisper_wrapper_transcribe`: the returned
string (`none` = `nullptr`), the value of `g_last_error` afterwards, and
whether `whisper_full` was reached. -/
structure WTranscribeOut where
  ret : Option String
  lastError : String
  engineCalled : Bool
deriving DecidableEq

/-- `whisper_wrapper_transcribe` (whisper_wrapper.cpp, lines 51-151).
`st` is the value of `g_last_error` on entry; a null context and a null or
non-positive audio buffer are rejected before the engine runs; a null
`language` defaults to `"en"`; a non-zero engine code records a message
with the code; otherwise the JSON result is returned and the error state
is untouched.  The progress callback never influences the result. -/
def windowsTranscribe (st : String) (ctx : Option Unit) (audioNull : Bool)
    (nSamples : Int) (language : Option String) (hasCallback : Bool)
    (engine : String → EngineOutcome) : WTranscribeOut :=
  if ctx.isNone then
    ⟨none, "Context is null", false⟩
  else if audioNull ∨ nSamples ≤ 0 then
    ⟨none, "Invalid audio data", false⟩
  else
    let out := engine (language.getD "en")
    if out.code ≠ 0 then
      ⟨none, "Transcription failed with code: " ++ toString out.code, true⟩
    else
      ⟨some (windowsBuildJson out.segments), st, true⟩

/-- observable outcome of `Java_com_securevox_app_whisper_WhisperLib_transcribeAudio`:
the returned jstring (`none` marks undefined behaviour; the function never
returns a null jstring on a defined path) and whether `whisper_full` was
reached.  The Android variant keeps no error state. -/
structure ATranscribeOut where
  ret : Option String
  engineCalled : Bool
deriving DecidableEq

/-- `Java_com_securevox_app_whisper_WhisperLib_transcribeAudio`
(whisper_jni.cpp, lines 54-169).  A null context logs and returns the empty
string; the audio buffer length is read but never validated; the language
string is passed to the engine unchanged (`none` reaches
`GetStringUTFChars`, undefined behaviour, before the engine runs); a
non-zero engine code logs and returns the empty string; otherwise the JSON
result is returned. -/
def androidTranscribe (ctx : Option Unit) (audioLen : Int)
    (language : Option String) (hasCallback : Bool)
    (engine : String → EngineOutcome) : ATranscribeOut :=
  match ctx with
  | none => ⟨some "", false⟩
  | some _ =>
      match language with
      | none => ⟨none, false⟩
      | some lang =>
          let out := engine lang
          if out.code ≠ 0 then ⟨some "", true⟩
          else ⟨androidBuildJson out.segments, true⟩

/-- `whisper_wrapper_init` (lines 20-37): null path and failed model load
record errors and return null; success returns the context and leaves the
error state alone.  `loadOk` is the oracle for
`whisper_init_from_file_with_params` succeeding. -/
def windowsInit (st : String) (modelPath : Option String) (loadOk : Bool) :
    Option Unit × String :=
  match modelPath with
  | none => (none, "Model path is null")
  | some p =>
      if loadOk then (some (), st)
      else (none, "Failed to load model from: " ++ p)

/-- `whisper_wrapper_is_multilingual` (lines 163-166): 0 for a null
context, otherwise the engine's answer; the error state is never touched. -/
def windowsIsMultilingual (st : String) (ctx : Option Unit)
    (multilingual : Bool) : Int × String :=
  match ctx with
  | none => (0, st)
  | some _ => ((if multilingual then 1 else 0), st)

/-- `whisper_wrapper_get_last_error` (lines 168-171): returns the stored
string's buffer, which `c_str()` guarantees is never a null pointer; hence
the model's return type is `String`, not `Option String`. -/
def windowsGetLastError (st : String) : String := st

/-- initial value of `static std::string g_last_error`: default-constructed,
empty. -/
def gInitialError : String := ""

/-- one boundary operation of the Windows wrapper, with the oracle answers
the engine would give baked into the operation. -/
inductive WOp where
  | init (modelPath : Option String) (loadOk : Bool)
  | transcribe (ctx : Option Unit) (audioNull : Bool) (nSamples : Int)
      (language : Option String) (hasCallback : Bool)
      (engine : String → EngineOutcome)
  | isMultilingual (ctx : Option Unit) (multilingual : Bool)

/-- effect of one operation on `g_last_error`. -/
def wStep (st : String) : WOp → String
  | .init p ok => (windowsInit st p ok).2
  | .transcribe c a n l cb e => (windowsTranscribe st c a n l cb e).lastError
  | .isMultilingual c m => (windowsIsMultilingual st c m).2

/-- whether the operation takes a failing path, i.e. returns the null
failure sentinel.  `isMultilingual` answering 0 for a null handle is its
specified answer (a pure query), not a failure. -/
def wFails : WOp → Bool
  | .init p ok => (windowsInit "" p ok).1.isNone
  | .transcribe c a n l cb e => (windowsTranscribe "" c a n l cb e).ret.isNone
  | .isMultilingual _ _ => false

/-- the message a failing operation records (failing paths set the state
independently of the prior state, so running from the empty state reads it
off). -/
def wErrMsg (op : WOp) : String := wStep "" op

/-- running a sequence of boundary operations from an error state. -/
def wRun (st : String) (ops : List WOp) : String := ops.foldl wStep st

/-- message of the most recent failing operation of a sequence, if any. -/
def lastFailMsg : List WOp → Option String
  | [] => none
  | op :: ops =>
      match lastFailMsg ops with
      | some m => some m
      | none => if wFails op then some (wErrMsg op) else none

/-- comma-prefixed concatenation: every element preceded by exactly one
comma. -/
def commaAll : List String → String
  | [] => ""
  | x :: rest => "," ++ x ++ commaAll rest

/-- comma-separated concatenation: the first element bare, every later
element preceded by exactly one comma, the empty list giving the empty
string. -/
def sepByComma : List String → String
  | [] => ""
  | x :: rest => x ++ commaAll rest

lemma unescList_escList (l : List Char) : unescList (escList l) = l := by
  induction l with
  | nil => rfl
  | cons c rest ih =>
      by_cases h1 : c = '"'
      · subst h1; simp [escList, escChar, unescList, unescChar, ih]
      · by_cases h2 : c = '\\'
        · subst h2; simp [escList, escChar, unescList, unescChar, ih]
        · by_cases h3 : c = '\n'
          · subst h3; simp [escList, escChar, unescList, unescChar, ih]
          · by_cases h4 : c = '\r'
            · subst h4; simp [escList, escChar, unescList, unescChar, ih]
            · by_cases h5 : c = '\t'
              · subst h5; simp [escList, escChar, unescList, unescChar, ih]
              · have hstep : unescList (c :: escList rest) =
                    c :: unescList (escList rest) := by
                  cases hE : escList rest <;> simp [unescList, h2]
                simp [escList, escChar, h1, h2, h3, h4, h5, hstep, ih]

lemma windowsSegmentsLoop_pos (segs : List Segment) :
    ∀ i : Nat, windowsSegmentsLoop segs (i + 1) =
      commaAll (segs.map windowsEncodeSegment) := by
  induction segs with
  | nil => intro i; rfl
  | cons s rest ih =>
      intro i
      simp [windowsSegmentsLoop, commaAll, ih (i + 1), String.append_assoc]

lemma windowsBuildJson_sep (segs : List Segment) :
    windowsBuildJson segs =
      "[" ++ sepByComma (segs.map windowsEncodeSegment) ++ "]" := by
  cases segs with
  | nil => rfl
  | cons s rest =>
      simp [windowsBuildJson, windowsSegmentsLoop, windowsSegmentsLoop_pos rest 0,
        sepByComma, String.append_assoc]

lemma androidSegmentsLoop_eq (segs : List Segment)
    (h : ∀ s ∈ segs, s.text.isSome = true) :
    ∀ i : Nat, androidSegmentsLoop segs i = some (windowsSegmentsLoop segs i) := by
  induction segs with
  | nil => intro i; rfl
  | cons s rest ih =>
      intro i
      obtain ⟨t, ht⟩ := Option.isSome_iff_exists.mp (h s (by simp))
      have hrest := ih (fun x hx => h x (by simp [hx])) (i + 1)
      simp [androidSegmentsLoop, windowsSegmentsLoop, androidEncodeSegment,
        windowsEncodeSegment, windowsEscapedText, ht, hrest]

lemma androidBuildJson_eq (segs : List Segment)
    (h : ∀ s ∈ segs, s.text.isSome = true) :
    androidBuildJson segs = some (windowsBuildJson segs) := by
  simp [androidBuildJson, windowsBuildJson, androidSegmentsLoop_eq segs h 0]

lemma wStep_fail (st : String) (op : WOp) (h : wFails op = true) :
    wStep st op = wErrMsg op := by
  cases op with
  | init p ok =>
      cases p with
      | none => rfl
      | some p' =>
          cases ok with
          | true => simp [wFails, windowsInit] at h
          | false => rfl
  | transcribe c a n l cb e =>
      cases c with
      | none => rfl
      | some u =>
          by_cases haud : (a : Prop) ∨ n ≤ 0
          · simp [wStep, wErrMsg, windowsTranscribe, haud]
          · by_cases hc : (e (l.getD "en")).code ≠ 0
            · simp [wStep, wErrMsg, windowsTranscribe, haud, hc]
            · simp [wFails, windowsTranscribe, haud, hc] at h
  | isMultilingual c m => simp [wFails] at h

lemma wStep_success (st : String) (op : WOp) (h : wFails op = false) :
    wStep st op = st := by
  cases op with
  | init p ok =>
      cases p with
      | none => simp [wFails, windowsInit] at h
      | some p' =>
          cases ok with
          | true => rfl
          | false => simp [wFails, windowsInit] at h
  | transcribe c a n l cb e =>
      cases c with
      | none => simp [wFails, windowsTranscribe] at h
      | some u =>
          by_cases haud : (a : Prop) ∨ n ≤ 0
          · simp [wFails, windowsTranscribe, haud] at h
          · by_cases hc : (e (l.getD "en")).code ≠ 0
            · simp [wFails, windowsTranscribe, haud, hc] at h
            · simp [wStep, windowsTranscribe, haud, hc]
  | isMultilingual c m => cases c <;> rfl

lemma wRun_spec (ops : List WOp) : ∀ st : String,
    wRun st ops = (lastFailMsg ops).getD st := by
  induction ops with
  | nil => intro st; rfl
  | cons op ops ih =>
      intro st
      have hstep : wRun st (op :: ops) = wRun (wStep st op) ops := rfl
      rw [hstep, ih]
      cases hm : lastFailMsg ops with
      | some m => simp [lastFailMsg, hm]
      | none =>
          by_cases hf : wFails op = true
          · simp [lastFailMsg, hm, hf, wStep_fail st op hf]
          · have hf' : wFails op = false := by
              simpa using hf
            simp [lastFailMsg, hm, hf', wStep_success st op hf']

lemma lastFailMsg_none (ops : List WOp)
    (h : ops.all (fun op => !wFails op) = true) : lastFailMsg ops = none := by
  induction ops with
  | nil => rfl
  | cons op ops ih =>
      simp only [List.all_cons, Bool.and_eq_true, Bool.not_eq_true'] at h
      simp [lastFailMsg, ih h.2, h.1]

lemma wErrMsg_pos (op : WOp) (h : wFails op = true) : 0 < (wErrMsg op).length := by
  cases op with
  | init p ok =>
      cases p with
      | none => cases ok <;> decide
      | some p' =>
          cases ok with
          | true => simp [wFails, windowsInit] at h
          | false =>
              have hmsg : wErrMsg (WOp.init (some p') false) =
                  "Failed to load model from: " ++ p' := rfl
              have hlen : 0 < ("Failed to load model from: ").length := by decide
              rw [hmsg, String.length_append]
              omega
  | transcribe c a n l cb e =>
      cases c with
      | none =>
          have hmsg : wErrMsg (WOp.transcribe none a n l cb e) =
              "Context is null" := rfl
          rw [hmsg]; decide
      | some u =>
          by_cases haud : (a : Prop) ∨ n ≤ 0
          · have : wErrMsg (WOp.transcribe (some u) a n l cb e) =
                "Invalid audio data" := by
              simp [wErrMsg, wStep, windowsTranscribe, haud]
            rw [this]; decide
          · by_cases hc : (e (l.getD "en")).code ≠ 0
            · have : wErrMsg (WOp.transcribe (some u) a n l cb e) =
                  "Transcription failed with code: " ++
                    toString (e (l.getD "en")).code := by
                simp [wErrMsg, wStep, windowsTranscribe, haud, hc]
              have hlen : 0 < ("Transcription failed with code: ").length := by decide
              rw [this, String.length_append]
              omega
            · simp [wFails, windowsTranscribe, haud, hc] at h
  | isMultilingual c m => simp [wFails] at h

/-- a fixed engine oracle: success with no segments. -/
def engineZero : String → EngineOutcome := fun _ => ⟨0, []⟩

/-- a fixed engine oracle: failure code -6 with a pending segment, to show
no partial data escapes. -/
def engineFail : String → EngineOutcome := fun _ => ⟨-6, [⟨some "partial", 0, 50⟩]⟩

/-- a fixed engine oracle: success with one segment. -/
def engineOneSeg : String → EngineOutcome := fun _ => ⟨0, [⟨some "hello", 12, 34⟩]⟩

/-- a fixed engine oracle that succeeds only for the language "en". -/
def engineZeroEn : String → EngineOutcome :=
  fun l => if l = "en" then ⟨0, []⟩ else ⟨1, []⟩

/-- C1 counterexample: the Android JNI variant called with a null context
handle returns a non-null empty jstring, not the null failure sentinel the
claim demands, and it maintains no last-error state that could receive a
context-null message. -/
theorem androidNullCtxReturnsEmpty :
    (androidTranscribe none 16000 (some "en") false engineZero).ret = some "" ∧
    ¬ (androidTranscribe none 16000 (some "en") false engineZero).ret = none := by
  decide

/-- C1 (amended): for every call with a null context handle, the Windows
wrapper returns null and sets the last-error state to "Context is null"
regardless of the audio buffer, the language argument and the callback
argument; the Android variant instead returns the empty string without
recording any error state, also without invoking the engine. -/
theorem transcribeNullCtx :
    (∀ (st : String) (audioNull : Bool) (nSamples : Int)
        (language : Option String) (hasCallback : Bool)
        (engine : String → EngineOutcome),
      windowsTranscribe st none audioNull nSamples language hasCallback engine =
        ⟨none, "Context is null", false⟩) ∧
    (∀ (audioLen : Int) (language : Option String) (hasCallback : Bool)
        (engine : String → EngineOutcome),
      androidTranscribe none audioLen language hasCallback engine =
        ⟨some "", false⟩) :=
  ⟨fun _ _ _ _ _ _ => rfl, fun _ _ _ _ => rfl⟩

/-- C2 counterexample: the Android variant with a non-null context and a
zero-length buffer invokes the engine and returns the engine's encoded
result rather than returning null with an invalid-audio-data error. -/
theorem androidZeroLenInvokesEngine :
    (androidTranscribe (some ()) 0 (some "en") false engineZero).engineCalled
        = true ∧
    ¬ (androidTranscribe (some ()) 0 (some "en") false engineZero).ret = none := by
  decide

/-- C2 (amended): the Windows wrapper rejects a null buffer and any
non-positive length before the engine runs, returning null with last-error
"Invalid audio data"; the Android variant performs no buffer validation and
invokes the engine even on a zero-length buffer. -/
theorem invalidAudioChecked :
    (∀ (st : String) (audioNull : Bool) (nSamples : Int)
        (language : Option String) (hasCallback : Bool)
        (engine : String → EngineOutcome),
      (audioNull = true ∨ nSamples ≤ 0) →
      windowsTranscribe st (some ()) audioNull nSamples language hasCallback
          engine = ⟨none, "Invalid audio data", false⟩) ∧
    (∀ (audioLen : Int) (lang : String) (hasCallback : Bool)
        (engine : String → EngineOutcome),
      (androidTranscribe (some ()) audioLen (some lang) hasCallback
          engine).engineCalled = true) := by
  constructor
  · intro st a n l cb e h
    unfold windowsTranscribe
    rw [if_neg (by simp), if_pos h]
  · intro len lang cb e
    by_cases hc : (e lang).code ≠ 0 <;> simp [androidTranscribe, hc]

/-- C2 witness: the Windows check fires at length zero, and the Android
engine call happens at length zero. -/
theorem invalidAudioChecked_witness :
    windowsTranscribe "" (some ()) false 0 (some "en") false engineZero =
      ⟨none, "Invalid audio data", false⟩ ∧
    (androidTranscribe (some ()) 0 (some "en") false engineZero).engineCalled
        = true :=
  ⟨invalidAudioChecked.1 "" false 0 (some "en") false engineZero
      (Or.inr (by decide)),
   invalidAudioChecked.2 0 "en" false engineZero⟩

/-- C3: every successful JSON result is the bracketed comma-separated list
of the encoded segments in engine order — the object at index 0 bare, every
later object preceded by exactly one comma — and the empty segment list
yields exactly "[]"; the Android encoder produces the same string whenever
all segment texts are non-null. -/
theorem jsonArrayFormat :
    (∀ segs : List Segment,
      windowsBuildJson segs =
        "[" ++ sepByComma (segs.map windowsEncodeSegment) ++ "]") ∧
    windowsBuildJson [] = "[]" ∧
    (∀ segs : List Segment, (∀ s ∈ segs, s.text.isSome = true) →
      androidBuildJson segs = some (windowsBuildJson segs)) :=
  ⟨windowsBuildJson_sep, rfl, androidBuildJson_eq⟩

/-- C3 witness at a one-segment list. -/
theorem jsonArrayFormat_witness :
    windowsBuildJson [⟨some "hi", 5, 7⟩] =
      "[" ++ sepByComma ([⟨some "hi", 5, 7⟩].map windowsEncodeSegment) ++ "]" ∧
    androidBuildJson [⟨some "hi", 5, 7⟩] =
      some (windowsBuildJson [⟨some "hi", 5, 7⟩]) :=
  ⟨jsonArrayFormat.1 _, jsonArrayFormat.2.2 _ (by decide)⟩

/-- C4: the encoder escapes exactly quote, backslash, newline, carriage
return and tab, passes every other character through verbatim, and
un-escaping exactly those five two-character sequences recovers the
original text: `unescList` inverts `escList` on every character list, and
`escapeText` (used by both encoders) is `escList` on the text's
characters. -/
theorem escapeRoundTrip :
    (∀ c : Char,
      ¬ c = '"' → ¬ c = '\\' → ¬ c = '\n' → ¬ c = '\r' → ¬ c = '\t' →
      escChar c = [c]) ∧
    (∀ s : String, (escapeText s).data = escList s.data) ∧
    (∀ l : List Char, unescList (escList l) = l) := by
  refine ⟨?_, fun s => rfl, unescList_escList⟩
  intro c h1 h2 h3 h4 h5
  simp [escChar, h1, h2, h3, h4, h5]

/-- C4 witness: a plain character passes through, and a text containing
all five special characters round-trips. -/
theorem escapeRoundTrip_witness :
    escChar 'a' = ['a'] ∧
    unescList (escList ['a', '"', '\\', '\n', '\r', '\t']) =
      ['a', '"', '\\', '\n', '\r', '\t'] :=
  ⟨escapeRoundTrip.1 'a' (by decide) (by decide) (by decide) (by decide)
      (by decide),
   escapeRoundTrip.2.2 _⟩

/-- C5 counterexample: on an engine failure (code -6, with a segment
pending) the Android variant returns the non-null empty string instead of
null, and it records no error message anywhere. -/
theorem androidEngineFailReturnsEmpty :
    (androidTranscribe (some ()) 16000 (some "en") false engineFail).ret
        = some "" ∧
    ¬ (androidTranscribe (some ()) 16000 (some "en") false engineFail).ret
        = none := by
  decide

/-- C5 (amended): on a non-zero engine result code the Windows wrapper
records "Transcription failed with code: " followed by the numeric code and
returns null, exposing no segment data; the Android variant likewise
exposes no segment data but returns the empty string and records
nothing. -/
theorem engineFailureHandling :
    (∀ (st : String) (nSamples : Int) (language : Option String)
        (hasCallback : Bool) (engine : String → EngineOutcome),
      0 < nSamples → (engine (language.getD "en")).code ≠ 0 →
      windowsTranscribe st (some ()) false nSamples language hasCallback
          engine =
        ⟨none, "Transcription failed with code: " ++
          toString (engine (language.getD "en")).code, true⟩) ∧
    (∀ (audioLen : Int) (lang : String) (hasCallback : Bool)
        (engine : String → EngineOutcome),
      (engine lang).code ≠ 0 →
      androidTranscribe (some ()) audioLen (some lang) hasCallback engine =
        ⟨some "", true⟩) := by
  constructor
  · intro st n l cb e hn hc
    have hnot : ¬ n ≤ 0 := by omega
    simp [windowsTranscribe, hnot, hc]
  · intro len lang cb e hc
    simp [androidTranscribe, hc]

/-- C5 witness: engine code -6 at concrete inputs. -/
theorem engineFailureHandling_witness :
    windowsTranscribe "" (some ()) false 16000 (some "en") false engineFail =
      ⟨none, "Transcription failed with code: -6", true⟩ ∧
    androidTranscribe (some ()) 16000 (some "en") false engineFail =
      ⟨some "", true⟩ :=
  ⟨(engineFailureHandling.1 "" 16000 (some "en") false engineFail (by decide)
      (by decide)).trans (by decide),
   engineFailureHandling.2 16000 "en" false engineFail (by decide)⟩

/-- C6: in the Windows boundary (the variant that maintains the last-error
state), every failing operation overwrites the state with its own message,
independently of the prior state, before returning its failure sentinel;
no successful operation modifies the state (`isMultilingual` answering 0
for a null handle is its specified pure-query answer, not a failure); and
the accessor returns the message of the most recent failing operation of
any operation sequence, or the inherited state when none failed. -/
theorem lastErrorContract :
    (∀ (st : String) (op : WOp), wFails op = true → wStep st op = wErrMsg op) ∧
    (∀ (st : String) (op : WOp), wFails op = false → wStep st op = st) ∧
    (∀ (st : String) (ops : List WOp),
      windowsGetLastError (wRun st ops) = (lastFailMsg ops).getD st) :=
  ⟨wStep_fail, wStep_success, fun st ops => wRun_spec ops st⟩

/-- C6 witness: a failing transcribe overwrites, a null-handle
`isMultilingual` leaves the state alone, and the accessor reports the
failing init of a one-operation sequence. -/
theorem lastErrorContract_witness :
    wStep "prior" (WOp.transcribe none false 16000 (some "en") false
        engineZero) =
      wErrMsg (WOp.transcribe none false 16000 (some "en") false engineZero) ∧
    wStep "prior" (WOp.isMultilingual none false) = "prior" ∧
    windowsGetLastError (wRun "prior" [WOp.init none true]) =
      (lastFailMsg [WOp.init none true]).getD "prior" :=
  ⟨lastErrorContract.1 "prior" _ rfl,
   lastErrorContract.2.1 "prior" _ rfl,
   lastErrorContract.2.2 "prior" _⟩

/-- C7: both encoders convert the engine's centisecond times to
milliseconds by multiplying by ten: for every segment the encoded `start`
field carries the value `t0 * 10` and the encoded `end` field the value
`t1 * 10`, rendered by `renderMs` as the exact integer with six zero
decimals. -/
theorem segmentTimesMilliseconds :
    (∀ s : Segment,
      windowsEncodeSegment s =
        "\x7b" ++ "\"text\":\"" ++ windowsEscapedText s.text ++ "\"," ++
          "\"start\":" ++ renderMs (s.t0 * 10) ++ "," ++
          "\"end\":" ++ renderMs (s.t1 * 10) ++ "\x7d") ∧
    (∀ (t : String) (t0 t1 : Int),
      androidEncodeSegment ⟨some t, t0, t1⟩ =
        some ("\x7b" ++ "\"text\":\"" ++ escapeText t ++ "\"," ++
          "\"start\":" ++ renderMs (t0 * 10) ++ "," ++
          "\"end\":" ++ renderMs (t1 * 10) ++ "\x7d")) ∧
    (∀ n : Int, renderMs n = toString n ++ ".000000") :=
  ⟨fun _ => rfl, fun _ _ _ => rfl, fun _ => rfl⟩

/-- C8 counterexample: the Android variant given a null (absent) language
never substitutes "en": the engine is not consulted at all — the null
string reaches `GetStringUTFChars` first, which is undefined behaviour. -/
theorem androidNullLanguageNoDefault :
    (androidTranscribe (some ()) 16000 none false engineZero).engineCalled
        = false ∧
    (androidTranscribe (some ()) 16000 none false engineZero).ret = none := by
  decide

/-- C8 (amended): the Windows wrapper passes "en" to the engine when the
language argument is null (a null-language call behaves exactly as a call
with "en") and passes a supplied language through unchanged (the result
depends only on the engine's answer at that language); the Android variant
does no defaulting — a supplied language is passed through unchanged, and a
null language leads to undefined behaviour before the engine is
consulted. -/
theorem languageDefaulting :
    (∀ (st : String) (audioNull : Bool) (nSamples : Int) (hasCallback : Bool)
        (engine : String → EngineOutcome),
      windowsTranscribe st (some ()) audioNull nSamples none hasCallback
          engine =
        windowsTranscribe st (some ()) audioNull nSamples (some "en")
          hasCallback engine) ∧
    (∀ (st : String) (audioNull : Bool) (nSamples : Int) (lang : String)
        (hasCallback : Bool) (engine engine2 : String → EngineOutcome),
      engine lang = engine2 lang →
      windowsTranscribe st (some ()) audioNull nSamples (some lang)
          hasCallback engine =
        windowsTranscribe st (some ()) audioNull nSamples (some lang)
          hasCallback engine2) ∧
    (∀ (audioLen : Int) (lang : String) (hasCallback : Bool)
        (engine engine2 : String → EngineOutcome),
      engine lang = engine2 lang →
      androidTranscribe (some ()) audioLen (some lang) hasCallback engine =
        androidTranscribe (some ()) audioLen (some lang) hasCallback
          engine2) ∧
    (∀ (audioLen : Int) (hasCallback : Bool)
        (engine : String → EngineOutcome),
      androidTranscribe (some ()) audioLen none hasCallback engine =
        ⟨none, false⟩) := by
  refine ⟨fun _ _ _ _ _ => rfl, ?_, ?_, fun _ _ _ => rfl⟩
  · intro st a n lang cb e e2 h
    simp [windowsTranscribe, h]
  · intro len lang cb e e2 h
    simp [androidTranscribe, h]

/-- C8 witness: two oracles agreeing at "en" give identical results on both
platforms. -/
theorem languageDefaulting_witness :
    windowsTranscribe "" (some ()) false 16000 (some "en") false engineZero =
      windowsTranscribe "" (some ()) false 16000 (some "en") false
        engineZeroEn ∧
    androidTranscribe (some ()) 16000 (some "en") false engineZero =
      androidTranscribe (some ()) 16000 (some "en") false engineZeroEn :=
  ⟨languageDefaulting.2.1 "" false 16000 "en" false engineZero engineZeroEn
      (by decide),
   languageDefaulting.2.2.1 16000 "en" false engineZero engineZeroEn
      (by decide)⟩

/-- C9 counterexample: on identical inputs (null context, same audio
length, same language, same engine) the Windows wrapper returns the null
sentinel while the Android variant returns a non-null empty string — the
two implementations do not realize the same observable contract. -/
theorem platformFailureDivergence :
    ¬ ((windowsTranscribe "" none false 16000 (some "en") false
          engineZero).ret =
       (androidTranscribe none 16000 (some "en") false engineZero).ret) := by
  decide

/-- C9 (amended): the two variants agree on the success path — a non-null
context, a non-null positive-length buffer, a non-null language and an
engine run with code 0 and non-null segment texts yield the same JSON
string on both — but they diverge on the failure paths and in input
validation: a null return plus a recorded error on Windows versus an empty
string and no record on Android, with buffer validation and language
defaulting existing only on Windows. -/
theorem successPathEquivalence :
    ∀ (st : String) (audioLen : Int) (lang : String) (hasCallback : Bool)
      (engine : String → EngineOutcome),
    0 < audioLen → (engine lang).code = 0 →
    (∀ s ∈ (engine lang).segments, s.text.isSome = true) →
    (windowsTranscribe st (some ()) false audioLen (some lang) hasCallback
        engine).ret =
      (androidTranscribe (some ()) audioLen (some lang) hasCallback
        engine).ret ∧
    (windowsTranscribe st (some ()) false audioLen (some lang) hasCallback
        engine).ret =
      some (windowsBuildJson (engine lang).segments) := by
  intro st len lang cb e hlen hcode htexts
  have hnot : ¬ len ≤ 0 := by omega
  have hw : (windowsTranscribe st (some ()) false len (some lang) cb e).ret =
      some (windowsBuildJson (e lang).segments) := by
    simp [windowsTranscribe, hnot, hcode]
  have ha : (androidTranscribe (some ()) len (some lang) cb e).ret =
      some (windowsBuildJson (e lang).segments) := by
    simp [androidTranscribe, hcode, androidBuildJson_eq _ htexts]
  exact ⟨hw.trans ha.symm, hw⟩

/-- C9 witness: both platforms produce the same one-segment JSON. -/
theorem successPathEquivalence_witness :
    (windowsTranscribe "" (some ()) false 16000 (some "en") false
        engineOneSeg).ret =
      (androidTranscribe (some ()) 16000 (some "en") false engineOneSeg).ret ∧
    (windowsTranscribe "" (some ()) false 16000 (some "en") false
        engineOneSeg).ret =
      some (windowsBuildJson (engineOneSeg "en").segments) :=
  successPathEquivalence "" 16000 "en" false engineOneSeg (by decide)
    (by decide) (by decide)

/-- C10: the Windows last-error accessor always returns a string — modelled
by its total `String` return type, mirroring `c_str()` of the stored
`std::string` never being a null pointer: it returns the empty string
initially and after any sequence of successful operations, and every
message a failing operation records is non-empty. -/
theorem getLastErrorNeverNull :
    windowsGetLastError gInitialError = "" ∧
    (∀ ops : List WOp, ops.all (fun op => !wFails op) = true →
      windowsGetLastError (wRun gInitialError ops) = "") ∧
    (∀ op : WOp, wFails op = true → 0 < (wErrMsg op).length) := by
  refine ⟨rfl, ?_, wErrMsg_pos⟩
  intro ops h
  show wRun gInitialError ops = ""
  rw [wRun_spec ops gInitialError, lastFailMsg_none ops h]
  rfl

/-- C10 witness: a successful sequence leaves the state empty, and the
null-path init message is non-empty. -/
theorem getLastErrorNeverNull_witness :
    windowsGetLastError (wRun gInitialError [WOp.isMultilingual none false])
        = "" ∧
    0 < (wErrMsg (WOp.init none true)).length :=
  ⟨getLastErrorNeverNull.2.1 [WOp.isMultilingual none false] rfl,
   getLastErrorNeverNull.2.2 (WOp.init none true) rfl⟩

end SecureVox
